import Mathlib

/-!
Shallow embedding of `src/protocol/c_shim/oracle_c_api.cc` (the
`HAVE_JANUS_ORACLE_GRPC_STUBS` build, the real bridge) together with the
wire message model it uses.  C strings that may be NULL are `Option String`;
`uint32_t`/`uint16_t` values are `Nat` (the code only stores and compares
them, never wraps); C `int` return codes are `Int`.  Effects of the
transport (the final gRPC status of a call and the response message it
delivered) and of the allocator (`malloc` success) are explicit parameters,
and the values an operation leaves in its out-parameters are returned,
threaded from the caller's pre-call values where the code does not write
them.
-/

namespace Janus

/-- gRPC status codes, restricted to those the bridge inspects or produces:
`OK`, `DEADLINE_EXCEEDED` (checked by every client call), `UNIMPLEMENTED`
and `INTERNAL` (produced by the service adapter), and a bucket for every
other non-OK code. -/
inductive GrpcCode where
  | ok
  | deadlineExceeded
  | unimplemented
  | internal
  | otherError
deriving DecidableEq, Repr

/-- Mirrors `grpc::Status::ok()`. -/
def GrpcCode.isOk : GrpcCode → Bool
  | .ok => true
  | _ => false

/-! Wire message model (`oracle.pb.h` shapes as used by the shim). -/

structure DocUpdateRequest where
  uri : String
  content : String
deriving DecidableEq, Repr

structure DocUpdateResponse where
  ok : Bool
deriving DecidableEq, Repr

/-- Proto3 default `DocUpdateResponse`. -/
def DocUpdateResponse.init : DocUpdateResponse := { ok := false }

structure PositionRequest where
  uri : String
  line : Nat
  character : Nat
deriving DecidableEq, Repr

structure HoverAtResponse where
  markdown : String
deriving DecidableEq, Repr

/-- Proto3 default `HoverAtResponse`. -/
def HoverAtResponse.init : HoverAtResponse := { markdown := "" }

structure DefinitionAtResponse where
  found : Bool
  uri : String
  line : Nat
  character : Nat
deriving DecidableEq, Repr

/-- Proto3 default `DefinitionAtResponse`. -/
def DefinitionAtResponse.init : DefinitionAtResponse :=
  { found := false, uri := "", line := 0, character := 0 }

structure WireLocation where
  uri : String
  line : Nat
  character : Nat
deriving DecidableEq, Repr

structure ReferencesAtRequest where
  uri : String
  line : Nat
  character : Nat
  include_declaration : Bool
deriving DecidableEq, Repr

structure ReferencesAtResponse where
  locations : List WireLocation
deriving DecidableEq, Repr

/-- Proto3 default `ReferencesAtResponse`. -/
def ReferencesAtResponse.init : ReferencesAtResponse := { locations := [] }

/-! Client side. -/

/-- `struct JanusOracleClient`.  The channel is represented by the
`host:port` target it was created for; `has_stub` is whether the stub
`unique_ptr` is non-null. -/
structure JanusOracleClient where
  target : String
  has_stub : Bool
  connect_timeout_ms : Nat
  rpc_timeout_ms : Nat
deriving DecidableEq, Repr

/-- Default member initializer `connect_timeout_ms = 1500`. -/
def default_connect_timeout_ms : Nat := 1500

/-- Default member initializer `rpc_timeout_ms = 1000`. -/
def default_rpc_timeout_ms : Nat := 1000

/-- Helper `dup_cstr`: returns NULL (`none`) for an empty string, NULL on
`malloc` failure (`allocOk = false`), otherwise a heap copy of `s`. -/
def dup_cstr (allocOk : Bool) (s : String) : Option String :=
  if s.isEmpty then none
  else if allocOk then some s else none

/-- `janus_oracle_client_connect`.  `throws` is whether a C++ exception is
thrown inside the `try` block; `allocOk` is whether `new (std::nothrow)`
succeeds; `readyWithinDeadline` is the result of
`channel->WaitForConnected(now + connect_timeout_ms)` on the fresh client
(whose `connect_timeout_ms` is the 1500 ms default).  All failure paths
return NULL (`none`). -/
def janus_oracle_client_connect (host : Option String) (port : Nat)
    (throws : Bool) (allocOk : Bool) (readyWithinDeadline : Bool) :
    Option JanusOracleClient :=
  if throws then none
  else
    let target := (host.getD "127.0.0.1") ++ ":" ++ toString port
    if !allocOk then none
    else
      let c : JanusOracleClient :=
        { target := target, has_stub := true,
          connect_timeout_ms := default_connect_timeout_ms,
          rpc_timeout_ms := default_rpc_timeout_ms }
      if !readyWithinDeadline then none else some c

/-- `janus_oracle_client_set_timeouts`: returns the C result code and the
client state after the call. -/
def janus_oracle_client_set_timeouts (client : Option JanusOracleClient)
    (connect_ms rpc_ms : Nat) : Int × Option JanusOracleClient :=
  match client with
  | none => (1, none)
  | some c =>
    let c1 := if connect_ms ≠ 0 then { c with connect_timeout_ms := connect_ms } else c
    let c2 := if rpc_ms ≠ 0 then { c1 with rpc_timeout_ms := rpc_ms } else c1
    (0, some c2)

/-- What one remote call looked like at the client: the final `grpc::Status`
code and the response message the transport left in `resp` (only read by the
shim when the status is OK). -/
structure RpcResult (ρ : Type) where
  status : GrpcCode
  resp : ρ
deriving DecidableEq, Repr

/-- A call actually issued on the wire: the request message built by the
shim and the relative deadline (`rpc_timeout_ms`) set on the context. -/
structure SentCall (ρ : Type) where
  req : ρ
  deadline_ms : Nat
deriving DecidableEq, Repr

structure DocUpdateResult where
  code : Int
  ok_out : Bool
  sent : Option (SentCall DocUpdateRequest)
deriving DecidableEq, Repr

/-- `janus_oracle_doc_update`.  `ok_prev` is the caller's value behind
`ok_out` before the call (the code writes it only on success). -/
def janus_oracle_doc_update (client : Option JanusOracleClient)
    (uri content : Option String) (throws : Bool)
    (rpc : RpcResult DocUpdateResponse) (ok_prev : Bool) : DocUpdateResult :=
  match client with
  | none => { code := 1, ok_out := ok_prev, sent := none }
  | some c =>
    if !c.has_stub then { code := 1, ok_out := ok_prev, sent := none }
    else if throws then { code := 3, ok_out := ok_prev, sent := none }
    else
      let req : DocUpdateRequest := { uri := uri.getD "", content := content.getD "" }
      let sc := some (SentCall.mk req c.rpc_timeout_ms)
      if !rpc.status.isOk then
        if rpc.status = GrpcCode.deadlineExceeded then
          { code := 5, ok_out := ok_prev, sent := sc }
        else { code := 2, ok_out := ok_prev, sent := sc }
      else { code := 0, ok_out := rpc.resp.ok, sent := sc }

structure HoverResult where
  code : Int
  markdown_out : Option String
  sent : Option (SentCall PositionRequest)
deriving DecidableEq, Repr

/-- `janus_oracle_hover_at`.  `markdown_out` is defensively nulled first, so
no pre-call value is threaded; `allocOk` feeds the `dup_cstr` `malloc`. -/
def janus_oracle_hover_at (client : Option JanusOracleClient)
    (uri : Option String) (line character : Nat) (throws : Bool)
    (rpc : RpcResult HoverAtResponse) (allocOk : Bool) : HoverResult :=
  match client with
  | none => { code := 1, markdown_out := none, sent := none }
  | some c =>
    if !c.has_stub then { code := 1, markdown_out := none, sent := none }
    else if throws then { code := 3, markdown_out := none, sent := none }
    else
      let req : PositionRequest := { uri := uri.getD "", line := line, character := character }
      let sc := some (SentCall.mk req c.rpc_timeout_ms)
      if !rpc.status.isOk then
        if rpc.status = GrpcCode.deadlineExceeded then
          { code := 5, markdown_out := none, sent := sc }
        else { code := 2, markdown_out := none, sent := sc }
      else { code := 0, markdown_out := dup_cstr allocOk rpc.resp.markdown, sent := sc }

structure DefinitionResult where
  code : Int
  found_out : Bool
  uri_out : Option String
  def_line_out : Nat
  def_character_out : Nat
  sent : Option (SentCall PositionRequest)
deriving DecidableEq, Repr

/-- `janus_oracle_definition_at`.  Only `uri_out` and `found_out` are
defensively cleared; `def_line_out` and `def_character_out` keep the
caller's pre-call values (`line_prev`, `character_prev`) unless the
response is `found`. -/
def janus_oracle_definition_at (client : Option JanusOracleClient)
    (uri : Option String) (line character : Nat) (throws : Bool)
    (rpc : RpcResult DefinitionAtResponse) (allocOk : Bool)
    (line_prev character_prev : Nat) : DefinitionResult :=
  let base : DefinitionResult :=
    { code := 0, found_out := false, uri_out := none,
      def_line_out := line_prev, def_character_out := character_prev, sent := none }
  match client with
  | none => { base with code := 1 }
  | some c =>
    if !c.has_stub then { base with code := 1 }
    else if throws then { base with code := 3 }
    else
      let req : PositionRequest := { uri := uri.getD "", line := line, character := character }
      let sc := some (SentCall.mk req c.rpc_timeout_ms)
      if !rpc.status.isOk then
        if rpc.status = GrpcCode.deadlineExceeded then { base with code := 5, sent := sc }
        else { base with code := 2, sent := sc }
      else if rpc.resp.found then
        { code := 0, found_out := true, uri_out := dup_cstr allocOk rpc.resp.uri,
          def_line_out := rpc.resp.line, def_character_out := rpc.resp.character, sent := sc }
      else { base with sent := sc }

/-- `struct JanusOracleLocation`: `uri` is a heap string that may be NULL
(`dup_cstr` of an empty string or a failed `malloc`). -/
structure CLocation where
  uri : Option String
  line : Nat
  character : Nat
deriving DecidableEq, Repr

structure ReferencesResult where
  code : Int
  locations_out : Option (List CLocation)
  count_out : Nat
  sent : Option (SentCall ReferencesAtRequest)
deriving DecidableEq, Repr

/-- `janus_oracle_references_at`.  `throwsConstruct` is an exception before
the call is issued, `throwsMarshal` one during the copy loop; both are
caught by this function's `catch (...)` which returns 4.  `arrAllocOk` is
the `malloc` of the output array (failure returns 3); `dupAllocOk i` is the
`malloc` inside `dup_cstr` for entry `i`. -/
def janus_oracle_references_at (client : Option JanusOracleClient)
    (uri : Option String) (line character : Nat) (include_declaration : Bool)
    (throwsConstruct : Bool) (rpc : RpcResult ReferencesAtResponse)
    (arrAllocOk : Bool) (dupAllocOk : Nat → Bool) (throwsMarshal : Bool) :
    ReferencesResult :=
  let base : ReferencesResult :=
    { code := 0, locations_out := none, count_out := 0, sent := none }
  match client with
  | none => { base with code := 1 }
  | some c =>
    if !c.has_stub then { base with code := 1 }
    else if throwsConstruct then { base with code := 4 }
    else
      let req : ReferencesAtRequest :=
        { uri := uri.getD "", line := line, character := character,
          include_declaration := include_declaration }
      let sc := some (SentCall.mk req c.rpc_timeout_ms)
      if !rpc.status.isOk then
        if rpc.status = GrpcCode.deadlineExceeded then { base with code := 5, sent := sc }
        else { base with code := 2, sent := sc }
      else
        let n := rpc.resp.locations.length
        if n = 0 then { base with sent := sc }
        else if !arrAllocOk then { base with code := 3, sent := sc }
        else if throwsMarshal then { base with code := 4, sent := sc }
        else
          let arr := rpc.resp.locations.enum.map
            (fun p => CLocation.mk (dup_cstr (dupAllocOk p.1) p.2.uri) p.2.line p.2.character)
          { code := 0, locations_out := some arr, count_out := n, sent := sc }

/-! Server side. -/

/-- `JanusDocUpdateFn` with its `user` context captured: given the request's
`uri` and `content`, returns the C return code and the value it left in
`*ok_out` (which the adapter initialises to `false` before the call). -/
def DocUpdateHandler : Type := String → String → Int × Bool

/-- `JanusHoverAtFn` with `user` captured: returns the return code and the
pointer it left in `*markdown_out` (initialised to NULL by the adapter). -/
def HoverAtHandler : Type := String → Nat → Nat → Int × Option String

/-- `JanusDefinitionAtFn` with `user` captured: returns the return code and
the values left in `*found_out`, `*def_uri_out`, `*def_line_out`,
`*def_character_out` (initialised by the adapter to `false`, NULL, 0, 0). -/
def DefinitionAtHandler : Type := String → Nat → Nat → Int × Bool × Option String × Nat × Nat

/-- `JanusReferencesAtFn` with `user` captured: returns the return code and
the sequence of `(uri, line, character)` triples it passed to the sink, in
call order (`uri` may be NULL). -/
def ReferencesAtHandler : Type := String → Nat → Nat → Bool → Int × List (Option String × Nat × Nat)

/-- `struct JanusOracleServer`: `serverActive` is whether the
`std::unique_ptr<grpc::Server>` is non-null (present only between `start`
and `stop`). -/
structure JanusOracleServer where
  host : String
  port : Nat
  serverActive : Bool
  on_doc_update : Option DocUpdateHandler
  on_hover_at : Option HoverAtHandler
  on_definition_at : Option DefinitionAtHandler
  on_references_at : Option ReferencesAtHandler

/-- `janus_oracle_server_create`: `throws` is an exception inside `try`,
`allocOk` whether `new (std::nothrow)` succeeds.  The fresh server has no
listening endpoint and all handler pointers NULL. -/
def janus_oracle_server_create (host : Option String) (port : Nat)
    (throws : Bool) (allocOk : Bool) : Option JanusOracleServer :=
  if throws then none
  else if !allocOk then none
  else some
    { host := host.getD "127.0.0.1", port := port, serverActive := false,
      on_doc_update := none, on_hover_at := none,
      on_definition_at := none, on_references_at := none }

/-- `janus_oracle_server_set_handlers`: stores the four handler pointers. -/
def janus_oracle_server_set_handlers (server : Option JanusOracleServer)
    (d : Option DocUpdateHandler) (h : Option HoverAtHandler)
    (df : Option DefinitionAtHandler) (r : Option ReferencesAtHandler) :
    Int × Option JanusOracleServer :=
  match server with
  | none => (1, none)
  | some s =>
    (0, some { s with
                on_doc_update := d
                on_hover_at := h
                on_definition_at := df
                on_references_at := r })

/-- `janus_oracle_server_start`: `throws` is an exception inside `try`,
`buildOk` whether `builder.BuildAndStart()` returned a server. -/
def janus_oracle_server_start (server : Option JanusOracleServer)
    (throws : Bool) (buildOk : Bool) : Int × Option JanusOracleServer :=
  match server with
  | none => (1, none)
  | some s =>
    if throws then (3, some s)
    else if !buildOk then (2, some s)
    else (0, some { s with serverActive := true })

/-- `janus_oracle_server_stop`: shuts the endpoint down and resets the
pointer only when one is active; always returns 0 on a non-null handle. -/
def janus_oracle_server_stop (server : Option JanusOracleServer) :
    Int × Option JanusOracleServer :=
  match server with
  | none => (1, none)
  | some s =>
    if s.serverActive then (0, some { s with serverActive := false })
    else (0, some s)

/-- `janus_oracle_server_destroy`: calls stop, then frees the handle. -/
def janus_oracle_server_destroy (server : Option JanusOracleServer) :
    Option JanusOracleServer :=
  match server with
  | none => none
  | some _ => none

/-! The service adapter (`JanusOracleServer::ServiceImpl`).  Each method
returns the `grpc::Status` code it produced and the response message as it
left `*resp` (a fresh default-initialised message on entry). -/

/-- `ServiceImpl::DocUpdate`. -/
def ServiceImpl.DocUpdate (owner : JanusOracleServer) (req : DocUpdateRequest) :
    GrpcCode × DocUpdateResponse :=
  match owner.on_doc_update with
  | none => (GrpcCode.unimplemented, DocUpdateResponse.init)
  | some handler =>
    let r := handler req.uri req.content
    if r.1 ≠ 0 then (GrpcCode.internal, DocUpdateResponse.init)
    else (GrpcCode.ok, { ok := r.2 })

/-- `ServiceImpl::HoverAt`: `set_markdown` is called only when the handler
left a non-NULL pointer; otherwise the field keeps its `""` default. -/
def ServiceImpl.HoverAt (owner : JanusOracleServer) (req : PositionRequest) :
    GrpcCode × HoverAtResponse :=
  match owner.on_hover_at with
  | none => (GrpcCode.unimplemented, HoverAtResponse.init)
  | some handler =>
    let r := handler req.uri req.line req.character
    if r.1 ≠ 0 then (GrpcCode.internal, HoverAtResponse.init)
    else (GrpcCode.ok, { markdown := r.2.getD "" })

/-- `ServiceImpl::DefinitionAt`: the target fields are copied only when the
handler reported `found`; a NULL `def_uri` leaves the `""` default. -/
def ServiceImpl.DefinitionAt (owner : JanusOracleServer) (req : PositionRequest) :
    GrpcCode × DefinitionAtResponse :=
  match owner.on_definition_at with
  | none => (GrpcCode.unimplemented, DefinitionAtResponse.init)
  | some handler =>
    match handler req.uri req.line req.character with
    | (rc, found, duri, dline, dch) =>
      if rc ≠ 0 then (GrpcCode.internal, DefinitionAtResponse.init)
      else if found then
        (GrpcCode.ok, { found := true, uri := duri.getD "", line := dline, character := dch })
      else (GrpcCode.ok, { found := false, uri := "", line := 0, character := 0 })

/-- `ServiceImpl::sink_to_response`: appends one location to the growing
response; a NULL `uri` leaves the entry's `""` default. -/
def sink_to_response (resp : ReferencesAtResponse) (uri : Option String)
    (line character : Nat) : ReferencesAtResponse :=
  { locations := resp.locations ++
      [{ uri := uri.getD "", line := line, character := character }] }

/-- `ServiceImpl::ReferencesAt`: the handler streams entries through the
sink into `*resp` as it runs; the return code is checked only afterwards,
so on a handler failure the INTERNAL status is produced with the streamed
entries already in the (undelivered) response message. -/
def ServiceImpl.ReferencesAt (owner : JanusOracleServer) (req : ReferencesAtRequest) :
    GrpcCode × ReferencesAtResponse :=
  match owner.on_references_at with
  | none => (GrpcCode.unimplemented, ReferencesAtResponse.init)
  | some handler =>
    let r := handler req.uri req.line req.character req.include_declaration
    let resp := r.2.foldl (fun acc e => sink_to_response acc e.1 e.2.1 e.2.2)
      ReferencesAtResponse.init
    if r.1 ≠ 0 then (GrpcCode.internal, resp)
    else (GrpcCode.ok, resp)

/-- Modelled from the spec: the transport adapter is an external
collaborator (spec section 2, "Transport adapter (external)"); a call's
response message reaches the remote caller only when the call finishes
with the OK status — on any non-OK status the caller observes the status
code alone and no response payload. -/
def deliveredResponse {ρ : Type} (outcome : GrpcCode × ρ) : Option ρ :=
  if outcome.1.isOk then some outcome.2 else none

/-! Helper lemmas. -/

/-- Streaming entries through the sink appends their wire form to the
response in call order. -/
theorem sink_foldl_eq (l : List (Option String × Nat × Nat)) (acc : ReferencesAtResponse) :
    l.foldl (fun a e => sink_to_response a e.1 e.2.1 e.2.2) acc =
      { locations := acc.locations ++
          l.map (fun e => WireLocation.mk (e.1.getD "") e.2.1 e.2.2) } := by
  induction l generalizing acc with
  | nil => simp [sink_to_response]
  | cons x xs ih => rw [List.foldl_cons, ih]; simp [sink_to_response]

/-- Mapping a function of the element over an enumerated list forgets the
indices. -/
theorem enumFrom_map_snd {α β : Type} (k : α → β) (l : List α) :
    ∀ n, (List.enumFrom n l).map (fun p => k p.2) = l.map k := by
  induction l with
  | nil => intro n; rfl
  | cons x xs ih => intro n; simp [List.enumFrom, ih]

/-- The duplication helper maps the empty string to NULL whatever the
allocator does. -/
theorem dup_cstr_empty (b : Bool) : dup_cstr b "" = none := by
  cases b <;> rfl

/-- Concrete connected client handle used for concrete evaluations. -/
def c0 : JanusOracleClient :=
  { target := "127.0.0.1:50051", has_stub := true,
    connect_timeout_ms := 1500, rpc_timeout_ms := 1000 }

/-! Claims. -/

/-- Claim C2 counterexample: a connect whose ready-wait expires
(`WaitForConnected` returned false within `connect_timeout`) produces a null
handle, the same observable outcome as a connect that fails with a local
exception — there is no timeout-specific code 5 for connect. -/
theorem C2_counterexample :
    janus_oracle_client_connect (some "127.0.0.1") 50051 false true false = none ∧
    janus_oracle_client_connect (some "127.0.0.1") 50051 false true false =
      janus_oracle_client_connect (some "127.0.0.1") 50051 true true true :=
  ⟨rfl, rfl⟩

/-- Claim C2 (amended): every call operation reports expiry of its deadline
(transport status DEADLINE_EXCEEDED) with code 5, which differs from every
other status code the operations return (0, 1, 2, 3, 4), and the deadline
each call sets is the handle's `rpc_timeout_ms`; connect reports expiry of
its connect wait only by returning a null handle. -/
theorem C2_call_timeouts_code5 (c : JanusOracleClient) (hstub : c.has_stub = true)
    (uri content : Option String) (line character : Nat) (incl : Bool)
    (dresp : DocUpdateResponse) (hresp : HoverAtResponse)
    (defresp : DefinitionAtResponse) (rresp : ReferencesAtResponse)
    (allocOk arrAllocOk okPrev : Bool) (dupOk : Nat → Bool) (lp cp : Nat)
    (host : Option String) (port : Nat) (thr alc : Bool) :
    (janus_oracle_doc_update (some c) uri content false
        (RpcResult.mk GrpcCode.deadlineExceeded dresp) okPrev).code = 5 ∧
    (janus_oracle_hover_at (some c) uri line character false
        (RpcResult.mk GrpcCode.deadlineExceeded hresp) allocOk).code = 5 ∧
    (janus_oracle_definition_at (some c) uri line character false
        (RpcResult.mk GrpcCode.deadlineExceeded defresp) allocOk lp cp).code = 5 ∧
    (janus_oracle_references_at (some c) uri line character incl false
        (RpcResult.mk GrpcCode.deadlineExceeded rresp) arrAllocOk dupOk false).code = 5 ∧
    ((5 : Int) ∉ ([0, 1, 2, 3, 4] : List Int)) ∧
    (∀ sc, (janus_oracle_doc_update (some c) uri content false
        (RpcResult.mk GrpcCode.deadlineExceeded dresp) okPrev).sent = some sc →
      sc.deadline_ms = c.rpc_timeout_ms) ∧
    janus_oracle_client_connect host port thr alc false = none := by
  refine ⟨?_, ?_, ?_, ?_, by decide, ?_, ?_⟩
  · simp [janus_oracle_doc_update, hstub, GrpcCode.isOk]
  · simp [janus_oracle_hover_at, hstub, GrpcCode.isOk]
  · simp [janus_oracle_definition_at, hstub, GrpcCode.isOk]
  · simp [janus_oracle_references_at, hstub, GrpcCode.isOk]
  · intro sc hsc
    simp [janus_oracle_doc_update, hstub, GrpcCode.isOk] at hsc
    simp [← hsc]
  · cases thr <;> cases alc <;> simp [janus_oracle_client_connect]

/-- Claim C2 witness: the amended theorem applied to a concrete handle. -/
theorem C2_witness :
    c0.has_stub = true ∧
    (janus_oracle_doc_update (some c0) (some "u") (some "c") false
        (RpcResult.mk GrpcCode.deadlineExceeded (DocUpdateResponse.mk false)) false).code = 5 :=
  ⟨rfl, (C2_call_timeouts_code5 c0 rfl (some "u") (some "c") 0 0 true
      (DocUpdateResponse.mk false) (HoverAtResponse.mk "")
      DefinitionAtResponse.init ReferencesAtResponse.init
      true true false (fun _ => true) 0 0 none 0 true true).1⟩

/-- Claim C4 counterexample: on a not-found response with pre-call values 7
and 9 behind `def_line_out` and `def_character_out`, definition_at returns
success with those outputs still 7 and 9 — they are not reset to zero as
the claim states. -/
theorem C4_counterexample :
    (janus_oracle_definition_at (some c0) (some "file.janus") 1 2 false
        (RpcResult.mk GrpcCode.ok DefinitionAtResponse.init) true 7 9).code = 0 ∧
    (janus_oracle_definition_at (some c0) (some "file.janus") 1 2 false
        (RpcResult.mk GrpcCode.ok DefinitionAtResponse.init) true 7 9).found_out = false ∧
    (janus_oracle_definition_at (some c0) (some "file.janus") 1 2 false
        (RpcResult.mk GrpcCode.ok DefinitionAtResponse.init) true 7 9).uri_out = none ∧
    (janus_oracle_definition_at (some c0) (some "file.janus") 1 2 false
        (RpcResult.mk GrpcCode.ok DefinitionAtResponse.init) true 7 9).def_line_out = 7 ∧
    (janus_oracle_definition_at (some c0) (some "file.janus") 1 2 false
        (RpcResult.mk GrpcCode.ok DefinitionAtResponse.init) true 7 9).def_character_out = 9 ∧
    ¬ ((janus_oracle_definition_at (some c0) (some "file.janus") 1 2 false
        (RpcResult.mk GrpcCode.ok DefinitionAtResponse.init) true 7 9).def_line_out = 0 ∧
       (janus_oracle_definition_at (some c0) (some "file.janus") 1 2 false
        (RpcResult.mk GrpcCode.ok DefinitionAtResponse.init) true 7 9).def_character_out = 0) := by
  decide

/-- Claim C4 (amended): on a valid connected handle and a response with
found = false, definition_at returns status 0 with `*found_out = false` and
`*uri_out` null, while `*def_line_out` and `*def_character_out` are not
written: they keep whatever values they held before the call. -/
theorem C4_definition_not_found (c : JanusOracleClient) (hstub : c.has_stub = true)
    (uri : Option String) (line character lp cp : Nat) (allocOk : Bool)
    (rpc : RpcResult DefinitionAtResponse) (hok : rpc.status = GrpcCode.ok)
    (hnf : rpc.resp.found = false) :
    janus_oracle_definition_at (some c) uri line character false rpc allocOk lp cp =
      { code := 0, found_out := false, uri_out := none,
        def_line_out := lp, def_character_out := cp,
        sent := some (SentCall.mk (PositionRequest.mk (uri.getD "") line character)
          c.rpc_timeout_ms) } := by
  simp [janus_oracle_definition_at, hstub, hok, hnf, GrpcCode.isOk]

/-- Claim C4 witness: the amended theorem at a concrete input. -/
theorem C4_witness :
    janus_oracle_definition_at (some c0) (some "u") 1 2 false
        (RpcResult.mk GrpcCode.ok DefinitionAtResponse.init) true 7 9 =
      { code := 0, found_out := false, uri_out := none,
        def_line_out := 7, def_character_out := 9,
        sent := some (SentCall.mk (PositionRequest.mk "u" 1 2) 1000) } :=
  C4_definition_not_found c0 rfl (some "u") 1 2 7 9 true
    (RpcResult.mk GrpcCode.ok DefinitionAtResponse.init) rfl rfl

/-- Claim C5: on a valid connected handle, when the server's markdown string
is empty, hover_at returns status 0 with `*markdown_out` null — absence is
success-with-absent-value, never a failure code. -/
theorem C5_hover_empty_markdown (c : JanusOracleClient) (hstub : c.has_stub = true)
    (uri : Option String) (line character : Nat) (allocOk : Bool)
    (rpc : RpcResult HoverAtResponse) (hok : rpc.status = GrpcCode.ok)
    (hempty : rpc.resp.markdown = "") :
    (janus_oracle_hover_at (some c) uri line character false rpc allocOk).code = 0 ∧
    (janus_oracle_hover_at (some c) uri line character false rpc allocOk).markdown_out = none := by
  constructor <;>
    simp [janus_oracle_hover_at, hstub, hok, hempty, GrpcCode.isOk, dup_cstr_empty]

/-- Claim C5 witness. -/
theorem C5_witness :
    (janus_oracle_hover_at (some c0) (some "u") 1 2 false
        (RpcResult.mk GrpcCode.ok (HoverAtResponse.mk "")) true).code = 0 ∧
    (janus_oracle_hover_at (some c0) (some "u") 1 2 false
        (RpcResult.mk GrpcCode.ok (HoverAtResponse.mk "")) true).markdown_out = none :=
  C5_hover_empty_markdown c0 rfl (some "u") 1 2 true
    (RpcResult.mk GrpcCode.ok (HoverAtResponse.mk "")) rfl rfl

/-- Claim C6: on a valid handle set_timeouts returns 0 and updates exactly
the fields whose argument is non-zero (a zero argument leaves that field
unchanged); in particular set_timeouts(h, 0, 500) keeps connect_timeout and
sets rpc_timeout to 500. -/
theorem C6_set_timeouts (c : JanusOracleClient) (ct rt : Nat) :
    (janus_oracle_client_set_timeouts (some c) ct rt).1 = 0 ∧
    (janus_oracle_client_set_timeouts (some c) ct rt).2 = some
      { c with
          connect_timeout_ms := if ct ≠ 0 then ct else c.connect_timeout_ms
          rpc_timeout_ms := if rt ≠ 0 then rt else c.rpc_timeout_ms } ∧
    (janus_oracle_client_set_timeouts (some c) 0 500).1 = 0 ∧
    (janus_oracle_client_set_timeouts (some c) 0 500).2 =
      some { c with rpc_timeout_ms := 500 } := by
  obtain ⟨tgt, hs, cms, rms⟩ := c
  refine ⟨rfl, ?_, rfl, ?_⟩
  · by_cases h1 : ct = 0 <;> by_cases h2 : rt = 0 <;>
      simp [janus_oracle_client_set_timeouts, h1, h2]
  · simp [janus_oracle_client_set_timeouts]

/-- Claim C7 counterexample: with the remote call succeeded and one location
to marshal, failure to allocate the output array is reported with code 3,
not the code 4 the claim reserves for marshaling failures. -/
theorem C7_counterexample :
    (janus_oracle_references_at (some c0) (some "file.janus") 1 2 true false
        (RpcResult.mk GrpcCode.ok (ReferencesAtResponse.mk [WireLocation.mk "u" 1 2]))
        false (fun _ => true) false).code = 3 ∧
    (janus_oracle_references_at (some c0) (some "file.janus") 1 2 true false
        (RpcResult.mk GrpcCode.ok (ReferencesAtResponse.mk [WireLocation.mk "u" 1 2]))
        false (fun _ => true) false).code ≠ 4 := by
  decide

/-- Claim C7 (amended): in references_at, any caught local exception —
whether raised before the call is issued or during result marshaling — is
reported with code 4, while failure of the output-array allocation after a
successful remote call is reported with code 3. -/
theorem C7_references_local_failure_codes (c : JanusOracleClient) (hstub : c.has_stub = true)
    (uri : Option String) (line character : Nat) (incl : Bool)
    (rpc : RpcResult ReferencesAtResponse) (hok : rpc.status = GrpcCode.ok)
    (hne : rpc.resp.locations ≠ []) (dupOk : Nat → Bool) :
    (janus_oracle_references_at (some c) uri line character incl true rpc true dupOk false).code = 4 ∧
    (janus_oracle_references_at (some c) uri line character incl false rpc false dupOk false).code = 3 ∧
    (janus_oracle_references_at (some c) uri line character incl false rpc true dupOk true).code = 4 := by
  refine ⟨?_, ?_, ?_⟩ <;>
    simp [janus_oracle_references_at, hstub, hok, hne, GrpcCode.isOk, List.length_eq_zero]

/-- Claim C7 witness. -/
theorem C7_witness :
    (janus_oracle_references_at (some c0) (some "u") 1 2 true false
        (RpcResult.mk GrpcCode.ok (ReferencesAtResponse.mk [WireLocation.mk "u" 1 2]))
        false (fun _ => true) false).code = 3 :=
  (C7_references_local_failure_codes c0 rfl (some "u") 1 2 true
    (RpcResult.mk GrpcCode.ok (ReferencesAtResponse.mk [WireLocation.mk "u" 1 2]))
    rfl (by decide) (fun _ => true)).2.1

/-- Claim C8: server_stop returns 1 only for a null handle; on any non-null
handle it returns 0 and leaves the handle with no active endpoint, and a
second stop returns the same result and final state as the first. -/
theorem C8_stop_idempotent (s : JanusOracleServer) :
    (janus_oracle_server_stop none).1 = 1 ∧
    (janus_oracle_server_stop (some s)).1 = 0 ∧
    (janus_oracle_server_stop (some s)).2 = some { s with serverActive := false } ∧
    janus_oracle_server_stop ((janus_oracle_server_stop (some s)).2) =
      janus_oracle_server_stop (some s) := by
  obtain ⟨h, p, act, d1, d2, d3, d4⟩ := s
  cases act <;> simp [janus_oracle_server_stop]

/-- The duplication helper maps every string to NULL when its allocation
fails. -/
theorem dup_cstr_allocfail (s : String) : dup_cstr false s = none := by
  simp [dup_cstr]

/-- Claim C9: a null string argument is never rejected as invalid arguments:
a null host is replaced by "127.0.0.1" in connect and server_create, and
null uri/content are replaced by the empty string before the request is
sent, with code 1 never produced for a valid handle. -/
theorem C9_null_strings (c : JanusOracleClient) (hstub : c.has_stub = true)
    (port : Nat) (thr alc rdy : Bool) (content : Option String)
    (line character : Nat) (incl : Bool)
    (drpc : RpcResult DocUpdateResponse) (hrpc : RpcResult HoverAtResponse)
    (prpc : RpcResult DefinitionAtResponse) (rrpc : RpcResult ReferencesAtResponse)
    (okPrev allocOk arrAllocOk : Bool) (dupOk : Nat → Bool) (lp cp : Nat) :
    janus_oracle_client_connect none port thr alc rdy =
      janus_oracle_client_connect (some "127.0.0.1") port thr alc rdy ∧
    janus_oracle_server_create none port thr alc =
      janus_oracle_server_create (some "127.0.0.1") port thr alc ∧
    janus_oracle_doc_update (some c) none none false drpc okPrev =
      janus_oracle_doc_update (some c) (some "") (some "") false drpc okPrev ∧
    (janus_oracle_doc_update (some c) none content false drpc okPrev).code ≠ 1 ∧
    janus_oracle_hover_at (some c) none line character false hrpc allocOk =
      janus_oracle_hover_at (some c) (some "") line character false hrpc allocOk ∧
    (janus_oracle_hover_at (some c) none line character false hrpc allocOk).code ≠ 1 ∧
    janus_oracle_definition_at (some c) none line character false prpc allocOk lp cp =
      janus_oracle_definition_at (some c) (some "") line character false prpc allocOk lp cp ∧
    (janus_oracle_definition_at (some c) none line character false prpc allocOk lp cp).code ≠ 1 ∧
    janus_oracle_references_at (some c) none line character incl false rrpc arrAllocOk dupOk false =
      janus_oracle_references_at (some c) (some "") line character incl false rrpc arrAllocOk dupOk false ∧
    (janus_oracle_references_at (some c) none line character incl false rrpc arrAllocOk dupOk false).code ≠ 1 := by
  refine ⟨rfl, rfl, rfl, ?_, rfl, ?_, rfl, ?_, rfl, ?_⟩
  · simp only [janus_oracle_doc_update, hstub]
    split_ifs <;> simp_all
  · simp only [janus_oracle_hover_at, hstub]
    split_ifs <;> simp_all
  · simp only [janus_oracle_definition_at, hstub]
    split_ifs <;> simp_all
  · simp only [janus_oracle_references_at, hstub]
    split_ifs <;> simp_all

/-- Claim C9 witness. -/
theorem C9_witness :
    janus_oracle_doc_update (some c0) none none false
        (RpcResult.mk GrpcCode.ok (DocUpdateResponse.mk true)) false =
      janus_oracle_doc_update (some c0) (some "") (some "") false
        (RpcResult.mk GrpcCode.ok (DocUpdateResponse.mk true)) false ∧
    (janus_oracle_doc_update (some c0) none (some "x") false
        (RpcResult.mk GrpcCode.ok (DocUpdateResponse.mk true)) false).code ≠ 1 := by
  have h := C9_null_strings c0 rfl 0 false false false (some "x") 1 2 true
      (RpcResult.mk GrpcCode.ok (DocUpdateResponse.mk true))
      (RpcResult.mk GrpcCode.ok (HoverAtResponse.mk ""))
      (RpcResult.mk GrpcCode.ok DefinitionAtResponse.init)
      (RpcResult.mk GrpcCode.ok ReferencesAtResponse.init)
      false true true (fun _ => true) 0 0
  exact ⟨h.2.2.1, h.2.2.2.1⟩

/-- Claim C10: the duplication helper returns NULL both for an empty input
and on allocation failure, so hover_at — and the found-case uri of
definition_at and each references entry's uri — yields status 0 with a null
string in both situations, and a caller cannot tell a legitimately empty
string from a local allocation failure. -/
theorem C10_absent_vs_alloc_failure (c : JanusOracleClient) (hstub : c.has_stub = true)
    (uri : Option String) (line character : Nat) (s : String) (hs : s ≠ "") :
    (∀ b, dup_cstr b "" = none) ∧
    (∀ u, dup_cstr false u = none) ∧
    janus_oracle_hover_at (some c) uri line character false
        (RpcResult.mk GrpcCode.ok (HoverAtResponse.mk "")) true =
      janus_oracle_hover_at (some c) uri line character false
        (RpcResult.mk GrpcCode.ok (HoverAtResponse.mk s)) false ∧
    (janus_oracle_hover_at (some c) uri line character false
        (RpcResult.mk GrpcCode.ok (HoverAtResponse.mk s)) false).code = 0 ∧
    (janus_oracle_hover_at (some c) uri line character false
        (RpcResult.mk GrpcCode.ok (HoverAtResponse.mk s)) false).markdown_out = none ∧
    (janus_oracle_definition_at (some c) uri line character false
        (RpcResult.mk GrpcCode.ok (DefinitionAtResponse.mk true s 3 4)) false 0 0).code = 0 ∧
    (janus_oracle_definition_at (some c) uri line character false
        (RpcResult.mk GrpcCode.ok (DefinitionAtResponse.mk true s 3 4)) false 0 0).uri_out = none ∧
    (janus_oracle_references_at (some c) uri line character true false
        (RpcResult.mk GrpcCode.ok (ReferencesAtResponse.mk [WireLocation.mk s 1 2]))
        true (fun _ => false) false).code = 0 ∧
    (janus_oracle_references_at (some c) uri line character true false
        (RpcResult.mk GrpcCode.ok (ReferencesAtResponse.mk [WireLocation.mk s 1 2]))
        true (fun _ => false) false).locations_out = some [CLocation.mk none 1 2] := by
  refine ⟨dup_cstr_empty, dup_cstr_allocfail, ?_, ?_, ?_, ?_, ?_, ?_, ?_⟩ <;>
    simp [janus_oracle_hover_at, janus_oracle_definition_at, janus_oracle_references_at,
      hstub, GrpcCode.isOk, dup_cstr_empty, dup_cstr_allocfail, List.enum, List.enumFrom]

/-- Claim C10 witness. -/
theorem C10_witness :
    ("hello" : String) ≠ "" ∧
    janus_oracle_hover_at (some c0) (some "u") 1 2 false
        (RpcResult.mk GrpcCode.ok (HoverAtResponse.mk "")) true =
      janus_oracle_hover_at (some c0) (some "u") 1 2 false
        (RpcResult.mk GrpcCode.ok (HoverAtResponse.mk "hello")) false :=
  ⟨by decide, (C10_absent_vs_alloc_failure c0 rfl (some "u") 1 2 "hello" (by decide)).2.2.1⟩

/-- Projecting line and character out of the marshaled client array
recovers the streamed pairs in order. -/
theorem map_enumFrom_proj (locs : List (Option String × Nat × Nat)) (dupOk : Nat → Bool) :
    ∀ n, ((List.enumFrom n (locs.map (fun e => WireLocation.mk (e.1.getD "") e.2.1 e.2.2))).map
        (fun p => CLocation.mk (dup_cstr (dupOk p.1) p.2.uri) p.2.line p.2.character)).map
      (fun l => (l.line, l.character)) = locs.map (fun e => (e.2.1, e.2.2)) := by
  induction locs with
  | nil => intro n; rfl
  | cons x xs ih => intro n; simp [List.enumFrom, ih]

/-- Claim C3: composing a registered references handler that streams `locs`
and returns 0 with a references_at call on a valid connected handle: zero
streamed locations give status 0 with a null array and count 0, and N
streamed locations give status 0 with exactly N entries in streaming
order. -/
theorem C3_references_roundtrip (c : JanusOracleClient) (hstub : c.has_stub = true)
    (owner : JanusOracleServer) (h : ReferencesAtHandler)
    (uri : Option String) (line character : Nat) (incl : Bool)
    (locs : List (Option String × Nat × Nat)) (dupOk : Nat → Bool)
    (hset : owner.on_references_at = some h)
    (hrun : h (uri.getD "") line character incl = (0, locs))
    (res : ReferencesResult)
    (hres : res = janus_oracle_references_at (some c) uri line character incl false
        (RpcResult.mk
          (ServiceImpl.ReferencesAt owner
            (ReferencesAtRequest.mk (uri.getD "") line character incl)).1
          (ServiceImpl.ReferencesAt owner
            (ReferencesAtRequest.mk (uri.getD "") line character incl)).2)
        true dupOk false) :
    res.code = 0 ∧
    res.count_out = locs.length ∧
    (locs = [] → res.locations_out = none) ∧
    (res.locations_out.getD []).map (fun l => (l.line, l.character)) =
      locs.map (fun e => (e.2.1, e.2.2)) ∧
    (locs ≠ [] → res.locations_out = some
      ((locs.map (fun e => WireLocation.mk (e.1.getD "") e.2.1 e.2.2)).enum.map
        (fun p => CLocation.mk (dup_cstr (dupOk p.1) p.2.uri) p.2.line p.2.character))) := by
  have hsrv : ServiceImpl.ReferencesAt owner
      (ReferencesAtRequest.mk (uri.getD "") line character incl) =
      (GrpcCode.ok, ReferencesAtResponse.mk
        (locs.map (fun e => WireLocation.mk (e.1.getD "") e.2.1 e.2.2))) := by
    simp [ServiceImpl.ReferencesAt, hset, hrun, sink_foldl_eq, ReferencesAtResponse.init]
  subst hres
  rw [hsrv]
  by_cases hl : locs = []
  · subst hl
    simp [janus_oracle_references_at, hstub, GrpcCode.isOk]
  · have hres2 : janus_oracle_references_at (some c) uri line character incl false
        (RpcResult.mk GrpcCode.ok (ReferencesAtResponse.mk
          (locs.map (fun e => WireLocation.mk (e.1.getD "") e.2.1 e.2.2)))) true dupOk false =
        { code := 0,
          locations_out := some
            ((locs.map (fun e => WireLocation.mk (e.1.getD "") e.2.1 e.2.2)).enum.map
              (fun p => CLocation.mk (dup_cstr (dupOk p.1) p.2.uri) p.2.line p.2.character)),
          count_out := locs.length,
          sent := some (SentCall.mk
            (ReferencesAtRequest.mk (uri.getD "") line character incl) c.rpc_timeout_ms) } := by
      simp [janus_oracle_references_at, hstub, GrpcCode.isOk, List.length_eq_zero, hl]
    rw [hres2]
    refine ⟨rfl, rfl, fun hc => absurd hc hl, ?_, fun _ => rfl⟩
    exact map_enumFrom_proj locs dupOk 0

/-- Claim C3 server fixture: a server whose references handler streams two
locations. -/
def wsrvR : JanusOracleServer :=
  { host := "127.0.0.1", port := 7, serverActive := true,
    on_doc_update := none, on_hover_at := none, on_definition_at := none,
    on_references_at := some (fun _ _ _ _ => (0, [(some "a", 1, 2), (none, 3, 4)])) }

/-- Claim C3 witness. -/
theorem C3_witness :
    (janus_oracle_references_at (some c0) (some "u") 1 2 true false
        (RpcResult.mk
          (ServiceImpl.ReferencesAt wsrvR (ReferencesAtRequest.mk "u" 1 2 true)).1
          (ServiceImpl.ReferencesAt wsrvR (ReferencesAtRequest.mk "u" 1 2 true)).2)
        true (fun _ => true) false).count_out = 2 ∧
    (janus_oracle_references_at (some c0) (some "u") 1 2 true false
        (RpcResult.mk
          (ServiceImpl.ReferencesAt wsrvR (ReferencesAtRequest.mk "u" 1 2 true)).1
          (ServiceImpl.ReferencesAt wsrvR (ReferencesAtRequest.mk "u" 1 2 true)).2)
        true (fun _ => true) false).locations_out =
      some [CLocation.mk (some "a") 1 2, CLocation.mk none 3 4] := by
  have h := C3_references_roundtrip c0 rfl wsrvR
      (fun _ _ _ _ => (0, [(some "a", 1, 2), (none, 3, 4)]))
      (some "u") 1 2 true [(some "a", 1, 2), (none, 3, 4)] (fun _ => true)
      rfl rfl _ rfl
  simp only [Option.getD_some] at h
  refine ⟨by simpa using h.2.1, ?_⟩
  rw [h.2.2.2.2 (by decide)]
  decide

/-- Claim C1: for each of the four operation kinds the service adapter
produces UNIMPLEMENTED when the corresponding handler is unset; when the
handler is set and returns non-zero it produces INTERNAL with no outputs
delivered to the caller; and on a zero return it copies the handler's
outputs into the wire response and returns OK. -/
theorem C1_service_adapter_dispatch (owner : JanusOracleServer)
    (dreq : DocUpdateRequest) (preq qreq : PositionRequest) (rreq : ReferencesAtRequest) :
    (owner.on_doc_update = none →
      ServiceImpl.DocUpdate owner dreq = (GrpcCode.unimplemented, DocUpdateResponse.init)) ∧
    (∀ h rc okv, owner.on_doc_update = some h → h dreq.uri dreq.content = (rc, okv) →
      (rc ≠ 0 →
        ServiceImpl.DocUpdate owner dreq = (GrpcCode.internal, DocUpdateResponse.init) ∧
        deliveredResponse (ServiceImpl.DocUpdate owner dreq) = none) ∧
      (rc = 0 →
        ServiceImpl.DocUpdate owner dreq = (GrpcCode.ok, DocUpdateResponse.mk okv))) ∧
    (owner.on_hover_at = none →
      ServiceImpl.HoverAt owner preq = (GrpcCode.unimplemented, HoverAtResponse.init)) ∧
    (∀ h rc md, owner.on_hover_at = some h → h preq.uri preq.line preq.character = (rc, md) →
      (rc ≠ 0 →
        ServiceImpl.HoverAt owner preq = (GrpcCode.internal, HoverAtResponse.init) ∧
        deliveredResponse (ServiceImpl.HoverAt owner preq) = none) ∧
      (rc = 0 →
        ServiceImpl.HoverAt owner preq = (GrpcCode.ok, HoverAtResponse.mk (md.getD "")))) ∧
    (owner.on_definition_at = none →
      ServiceImpl.DefinitionAt owner qreq = (GrpcCode.unimplemented, DefinitionAtResponse.init)) ∧
    (∀ h rc found duri dline dch, owner.on_definition_at = some h →
      h qreq.uri qreq.line qreq.character = (rc, found, duri, dline, dch) →
      (rc ≠ 0 →
        ServiceImpl.DefinitionAt owner qreq = (GrpcCode.internal, DefinitionAtResponse.init) ∧
        deliveredResponse (ServiceImpl.DefinitionAt owner qreq) = none) ∧
      (rc = 0 →
        ServiceImpl.DefinitionAt owner qreq =
          (GrpcCode.ok,
            if found then DefinitionAtResponse.mk true (duri.getD "") dline dch
            else DefinitionAtResponse.init))) ∧
    (owner.on_references_at = none →
      ServiceImpl.ReferencesAt owner rreq = (GrpcCode.unimplemented, ReferencesAtResponse.init)) ∧
    (∀ h rc locs, owner.on_references_at = some h →
      h rreq.uri rreq.line rreq.character rreq.include_declaration = (rc, locs) →
      (rc ≠ 0 →
        (ServiceImpl.ReferencesAt owner rreq).1 = GrpcCode.internal ∧
        deliveredResponse (ServiceImpl.ReferencesAt owner rreq) = none) ∧
      (rc = 0 →
        ServiceImpl.ReferencesAt owner rreq =
          (GrpcCode.ok, ReferencesAtResponse.mk
            (locs.map (fun e => WireLocation.mk (e.1.getD "") e.2.1 e.2.2))))) := by
  refine ⟨?_, ?_, ?_, ?_, ?_, ?_, ?_, ?_⟩
  · intro hnone; simp [ServiceImpl.DocUpdate, hnone]
  · intro h rc okv hset hrun
    refine ⟨?_, ?_⟩
    · intro hrc
      have he : ServiceImpl.DocUpdate owner dreq = (GrpcCode.internal, DocUpdateResponse.init) := by
        simp [ServiceImpl.DocUpdate, hset, hrun, hrc]
      exact ⟨he, by rw [he]; rfl⟩
    · intro hrc; simp [ServiceImpl.DocUpdate, hset, hrun, hrc]
  · intro hnone; simp [ServiceImpl.HoverAt, hnone]
  · intro h rc md hset hrun
    refine ⟨?_, ?_⟩
    · intro hrc
      have he : ServiceImpl.HoverAt owner preq = (GrpcCode.internal, HoverAtResponse.init) := by
        simp [ServiceImpl.HoverAt, hset, hrun, hrc]
      exact ⟨he, by rw [he]; rfl⟩
    · intro hrc; simp [ServiceImpl.HoverAt, hset, hrun, hrc]
  · intro hnone; simp [ServiceImpl.DefinitionAt, hnone]
  · intro h rc found duri dline dch hset hrun
    refine ⟨?_, ?_⟩
    · intro hrc
      have he : ServiceImpl.DefinitionAt owner qreq =
          (GrpcCode.internal, DefinitionAtResponse.init) := by
        simp [ServiceImpl.DefinitionAt, hset, hrun, hrc]
      exact ⟨he, by rw [he]; rfl⟩
    · intro hrc
      cases found <;>
        simp [ServiceImpl.DefinitionAt, hset, hrun, hrc, DefinitionAtResponse.init]
  · intro hnone; simp [ServiceImpl.ReferencesAt, hnone]
  · intro h rc locs hset hrun
    refine ⟨?_, ?_⟩
    · intro hrc
      have he : (ServiceImpl.ReferencesAt owner rreq).1 = GrpcCode.internal := by
        simp [ServiceImpl.ReferencesAt, hset, hrun, hrc]
      refine ⟨he, ?_⟩
      simp [deliveredResponse, he, GrpcCode.isOk]
    · intro hrc
      simp [ServiceImpl.ReferencesAt, hset, hrun, hrc, sink_foldl_eq,
        ReferencesAtResponse.init]

/-- Claim C1 server fixture: a server with all four handlers registered. -/
def wsrv : JanusOracleServer :=
  { host := "127.0.0.1", port := 7, serverActive := true,
    on_doc_update := some (fun _ _ => (0, true)),
    on_hover_at := some (fun _ _ _ => (0, some "md")),
    on_definition_at := some (fun _ _ _ => (0, true, some "d", 3, 4)),
    on_references_at := some (fun _ _ _ _ => (0, [(some "a", 1, 2)])) }

/-- Claim C1 witness. -/
theorem C1_witness :
    ServiceImpl.DocUpdate wsrv (DocUpdateRequest.mk "u" "c") =
      (GrpcCode.ok, DocUpdateResponse.mk true) ∧
    ServiceImpl.ReferencesAt wsrv (ReferencesAtRequest.mk "u" 1 2 true) =
      (GrpcCode.ok, ReferencesAtResponse.mk [WireLocation.mk "a" 1 2]) := by
  have h := C1_service_adapter_dispatch wsrv (DocUpdateRequest.mk "u" "c")
      (PositionRequest.mk "u" 0 0) (PositionRequest.mk "u" 0 0)
      (ReferencesAtRequest.mk "u" 1 2 true)
  constructor
  · exact (h.2.1 (fun _ _ => (0, true)) 0 true rfl rfl).2 rfl
  · have h8 := (h.2.2.2.2.2.2.2 (fun _ _ _ _ => (0, [(some "a", 1, 2)]))
      0 [(some "a", 1, 2)] rfl rfl).2 rfl
    rw [h8]; decide

end Janus
